import Mathlib

/-!
Shallow embedding of `src/drift-bot.ts` (a one-shot Drift trading bot):
configuration, free-collateral computation, account provisioning with
bounded re-checks, optional delegate setup, collateral-guarded order
placement, and the process exit-code mapping.

Amounts of SOL are modelled as rationals (the TypeScript numbers involved
in the claims are exact: integer lamports, raw on-chain integers divided
by 1e9, and the policy constants 0.1 / 0.2 / 0.5).  External calls
(RPC/SDK) are resolved by an explicit environment record that fixes every
oracle answer, so a run is a pure function from the environment to the
list of emitted exchange calls (the trace) and the final result.
-/

namespace DriftBot

/-- The `BOT_CONFIG` object (drift-bot.ts lines 22-32). -/
structure BotConfig where
  marketIndex : Nat
  orderSize : ℚ
  price : ℚ
  depositAmount : ℚ
  useDelegate : Bool
  delegateTradingAccountId : Nat
  networkIsDevnet : Bool
deriving Repr, DecidableEq

/-- The literal configuration of the source: market 1 (SOL), order size
0.1 SOL, price 165.35, deposit 0.5 SOL, delegate off, devnet. -/
def BOT_CONFIG : BotConfig :=
  { marketIndex := 1
    orderSize := 1/10
    price := 16535/100
    depositAmount := 1/2
    useDelegate := false
    delegateTradingAccountId := 0
    networkIsDevnet := true }

/-- An entry of the static `PerpMarkets` registry. -/
structure MarketInfo where
  baseAssetSymbol : String
  marketIndex : Nat
deriving Repr, DecidableEq

/-- `getTokenInfo` (lines 34-48): find the market whose base asset symbol
matches; the source throws when none is found, modelled as `none`. -/
def getTokenInfo (markets : List MarketInfo) (symbol : String) : Option MarketInfo :=
  markets.find? (fun m => m.baseAssetSymbol == symbol)

/-- The devnet `PerpMarkets` entry used by the bot: SOL-PERP has market
index 0 in the SDK's devnet registry. -/
def devnetMarkets : List MarketInfo :=
  [{ baseAssetSymbol := "SOL", marketIndex := 0 }]

/-- A spot position as read from the chain: the raw integer values that
`BN.toNumber()` yields before the `/ 1e9` normalization. -/
structure SpotPosition where
  cumulativeDeposits : Int
  scaledBalance : Int
deriving Repr, DecidableEq

/-- Outcome of one `user.getSpotPosition(marketIndex)` call: it returns a
position, returns `undefined` (no record for that market), or throws. -/
inductive SpotRead where
  | found (pos : SpotPosition)
  | absent
  | throws
deriving Repr, DecidableEq

/-- `getTradingAccountBalance` (lines 56-76).  `reader` is the state of
`user`'s spot positions, indexed by market.  The inner `try` returns
`cumulativeDeposits/1e9 − scaledBalance/1e9` when the position exists,
falls through to `return 0` when it is `undefined`, and the inner `catch`
also reaches `return 0` when `getSpotPosition` throws; the outer `catch`
(`return null`) is unreachable because every statement of the outer `try`
is covered by the inner one.  The JS subtraction of two exact multiples
of 2⁻ⁿ here is modelled exactly by `ℚ`. -/
def getTradingAccountBalance (cfg : BotConfig) (reader : Nat → SpotRead) : ℚ :=
  match reader cfg.marketIndex with
  | .found p => (p.cumulativeDeposits : ℚ) / 10^9 - (p.scaledBalance : ℚ) / 10^9
  | .absent => 0
  | .throws => 0

/-- The error thrown by `SendTransactionError` vs any other rejection of
`placePerpOrder`; a `SendTransactionError` carries optional simulation
logs (`e.logs`). -/
inductive TxError where
  | sendTransactionError (logs : Option (List String))
  | other
deriving Repr, DecidableEq

/-- Every exchange / chain call the run can emit, in order.  Log-only
console output is omitted except the error-classification branch of
`placeTrade`'s catch (`logDiagnosis`), which claims C8 is about. -/
inductive Event where
  | createAccount
  | accountPoll (found : Bool)
  | updateDelegate (delegatePub : Nat)
  | delegateClientCreated (walletKey : Nat) (authority : Nat)
  | readCollateral (value : ℚ)
  | deposit (amount : ℚ)
  | placePerpOrder (marketIndex : Nat) (baseAssetAmount : ℚ) (price : ℚ)
  | logDiagnosis (orderTooSmall : Bool)
deriving Repr, DecidableEq

/-- The distinct failures a run can end in (each a thrown `Error` of the
source, or a rejected SDK promise). -/
inductive BotError where
  | tokenInfoNotFound
  | subscribeFailed
  | createAccountRejected
  | accountStillNotFound
  | depositFailed
  | stillInsufficientAfterDeposit
  | updateDelegateFailed
  | delegateSubscribeFailed
  | txFailed (e : TxError)
deriving Repr, DecidableEq

/-- Result of a fallible step. -/
inductive RunResult (α : Type) where
  | ok (value : α)
  | error (e : BotError)
deriving Repr, DecidableEq

/-- `haystack` contains `needle` as a contiguous substring (the JS
`String.prototype.includes`). -/
def hasSubstr (needle : List Char) : List Char → Bool
  | [] => needle.isEmpty
  | c :: rest => needle.isPrefixOf (c :: rest) || hasSubstr needle rest

/-- `log.includes("OrderAmountTooSmall")` of line 239. -/
def lineHasMarker (l : String) : Bool :=
  hasSubstr "OrderAmountTooSmall".data l.data

/-- `e.logs && e.logs.some((log) => log.includes("OrderAmountTooSmall"))`
of line 239. -/
def logsShowOrderTooSmall (logs : Option (List String)) : Bool :=
  match logs with
  | some ls => ls.any lineHasMarker
  | none => false

/-- The classification the catch block of `placeTrade` (lines 234-247)
surfaces for a failure: the order-too-small branch of a simulation
rejection, any other `SendTransactionError`, or any other error (the
spec's `SubmissionFailure`). -/
inductive FailureKind where
  | orderTooSmall
  | simulationFailure
  | submissionFailure
deriving Repr, DecidableEq

def classifyTxError : TxError → FailureKind
  | .sendTransactionError logs =>
      if logsShowOrderTooSmall logs then .orderTooSmall else .simulationFailure
  | .other => .submissionFailure

/-- How the `placePerpOrder` promise ends: a transaction signature, or a
rejection with a `TxError`. -/
inductive OrderOutcome where
  | success (sig : Nat)
  | failure (e : TxError)
deriving Repr, DecidableEq

/-- Oracle answers for one `placeTrade` run: the market registry, the
spot-position state at the first read and at the post-deposit re-read,
whether `driftClient.deposit` resolves, and how `placePerpOrder` ends. -/
structure TradeEnv where
  markets : List MarketInfo
  readBefore : Nat → SpotRead
  readAfter : Nat → SpotRead
  depositOk : Bool
  orderOutcome : OrderOutcome

/-- The submission tail of `placeTrade` (lines 213-247): build the order
params (`convertToPerpPrecision` scales by 1e9, `convertToPricePrecision`
by 1e6), call `placePerpOrder`, and on failure run the catch block: a
`SendTransactionError` gets its logs printed and the order-too-small /
full-error diagnosis branch, then the original error is rethrown
unchanged (so the raw logs stay in the propagated payload). -/
def submitOrder (cfg : BotConfig) (tokenInfo : MarketInfo) (env : TradeEnv)
    (events : List Event) : List Event × RunResult Nat :=
  let ev := events ++
    [Event.placePerpOrder tokenInfo.marketIndex (cfg.orderSize * 10^9) (cfg.price * 10^6)]
  match env.orderOutcome with
  | .success sig => (ev, .ok sig)
  | .failure (.sendTransactionError logs) =>
      (ev ++ [Event.logDiagnosis (logsShowOrderTooSmall logs)],
       .error (.txFailed (.sendTransactionError logs)))
  | .failure .other => (ev, .error (.txFailed .other))

/-- `placeTrade` (lines 176-248).  JS truthiness on the numeric balances:
`!b` holds exactly when `b = 0`, and `b && p` holds exactly when `b ≠ 0`
and `p`.  The guard therefore deposits when the first read is 0 or below
`orderSize * 2`, re-reads once after the deposit, and throws
`Still insufficient balance...` only when the re-read value is nonzero
and below the requirement. -/
def placeTrade (cfg : BotConfig) (env : TradeEnv) : List Event × RunResult Nat :=
  match getTokenInfo env.markets "SOL" with
  | none => ([], .error .tokenInfoNotFound)
  | some tokenInfo =>
    let tradingAccountBalance := getTradingAccountBalance cfg env.readBefore
    let requiredCollateral := cfg.orderSize * 2
    let ev0 := [Event.readCollateral tradingAccountBalance]
    if tradingAccountBalance = 0 ∨ tradingAccountBalance < requiredCollateral then
      let ev1 := ev0 ++ [Event.deposit cfg.depositAmount]
      if env.depositOk then
        let newTradingAccountBalance := getTradingAccountBalance cfg env.readAfter
        let ev2 := ev1 ++ [Event.readCollateral newTradingAccountBalance]
        if newTradingAccountBalance ≠ 0 ∧ newTradingAccountBalance < requiredCollateral then
          (ev2, .error .stillInsufficientAfterDeposit)
        else
          submitOrder cfg tokenInfo env ev2
      else
        (ev1, .error .depositFailed)
    else
      submitOrder cfg tokenInfo env ev0

/-- Oracle answers for the provisioning block of `main` (lines 293-322):
whether `mainDriftClient.hasUser()` holds, whether
`mainDriftClient.initializeUserAccount(0)` resolves, and what the two
`getUserAccount()` point-in-time reads (after the 5s wait and, if still
absent, after the further 3s wait) see. -/
structure ProvisionEnv where
  hasUser : Bool
  createOk : Bool
  foundAfterFirstWait : Bool
  foundAfterSecondWait : Bool
deriving Repr, DecidableEq

/-- The provisioning block of `main` (lines 293-322).  When the user
exists nothing is called; otherwise one creation request is issued, and
it is followed by at most two re-checks before the run throws
`User account still not found after`. -/
def provisionAccount (env : ProvisionEnv) : List Event × RunResult Unit :=
  if env.hasUser then
    ([], .ok ())
  else if env.createOk then
    if env.foundAfterFirstWait then
      ([Event.createAccount, Event.accountPoll true], .ok ())
    else if env.foundAfterSecondWait then
      ([Event.createAccount, Event.accountPoll false, Event.accountPoll true], .ok ())
    else
      ([Event.createAccount, Event.accountPoll false, Event.accountPoll false],
       .error .accountStillNotFound)
  else
    ([Event.createAccount], .error .createAccountRejected)

/-- Key material of a keypair; a keypair's public and secret keys are
both determined by it, and two keypairs are equal exactly when their
material is. -/
structure Keypair where
  material : Nat
deriving Repr, DecidableEq

/-- `generateDelegateKeypair` (lines 108-119): `Keypair.generate()` reads
only the local randomness source — the main wallet's key material is not
an input. -/
def generateDelegateKeypair (rng : Nat) : Keypair :=
  { material := rng }

/-- Oracle answers for the delegate path: the local randomness consumed
by `Keypair.generate()`, whether `updateUserDelegate` resolves, and
whether the delegate client's `subscribe()` resolves. -/
structure DelegateEnv where
  rng : Nat
  updateDelegateOk : Bool
  delegateSubscribeOk : Bool
deriving Repr, DecidableEq

/-- `setupDelegate` (lines 121-143): generate the delegate keypair, then
register its public key with `updateUserDelegate`; a rejection is
rethrown. -/
def setupDelegate (env : DelegateEnv) : List Event × RunResult Keypair :=
  let delegateAccount := generateDelegateKeypair env.rng
  if env.updateDelegateOk then
    ([Event.updateDelegate delegateAccount.material], .ok delegateAccount)
  else
    ([Event.updateDelegate delegateAccount.material], .error .updateDelegateFailed)

/-- `createDelegateClient` (lines 145-174): a second client over the
delegate keypair with the main wallet's public key as `authority`; its
`subscribe()` may reject. -/
def createDelegateClient (env : DelegateEnv) (delegateAccount : Keypair)
    (mainKeyMaterial : Nat) : List Event × RunResult Unit :=
  if env.delegateSubscribeOk then
    ([Event.delegateClientCreated delegateAccount.material mainKeyMaterial], .ok ())
  else
    ([Event.delegateClientCreated delegateAccount.material mainKeyMaterial],
     .error .delegateSubscribeFailed)

/-- How a finished `main` promise resolved: the early return of the
wallet-balance guard (line 269), or the full workflow with the order's
signature. -/
inductive MainOutcome where
  | earlyAbort
  | completed (orderSig : Nat)
deriving Repr, DecidableEq

/-- Oracle answers for a whole `main` run.  `walletLamports` is what
`connection.getBalance` returns (an integer count of lamports);
`mainKeyMaterial` the main wallet's key material; `subscribeOk` covers
`mainDriftClient.subscribe()` and `userSubscribeOk` the
`getUserAccountPublicKey` / `user.subscribe()` pair, each folded to one
switch because the run only either proceeds or rethrows there. -/
structure MainEnv where
  walletLamports : Nat
  mainKeyMaterial : Nat
  subscribeOk : Bool
  provision : ProvisionEnv
  userSubscribeOk : Bool
  delegate : DelegateEnv
  trade : TradeEnv

/-- Await-style sequencing of two fallible steps: a rejection
short-circuits with the trace so far, otherwise the traces concatenate —
the `await` / `throw` control flow of `main`. -/
def chain {α β : Type} (s : List Event × RunResult α)
    (k : α → List Event × RunResult β) : List Event × RunResult β :=
  match s with
  | (ev, .error e) => (ev, .error e)
  | (ev, .ok a) => (ev ++ (k a).1, (k a).2)

/-- Wrap the resolution of `placeTrade` as the workflow outcome
(lines 363-365): a signature means the whole workflow completed. -/
def completedResult (t : List Event × RunResult Nat) :
    List Event × RunResult MainOutcome :=
  (t.1,
   match t.2 with
   | .ok sig => .ok (.completed sig)
   | .error e => .error e)

/-- `main` after the wallet-balance guard (lines 272-365): subscribe the
main client, provision the sub-account, subscribe the user, run the
optional delegate path, then trade. -/
def mainBody (cfg : BotConfig) (env : MainEnv) : List Event × RunResult MainOutcome :=
  if env.subscribeOk then
    chain (provisionAccount env.provision) (fun _ =>
      if env.userSubscribeOk then
        if cfg.useDelegate then
          chain (setupDelegate env.delegate) (fun delegateAccount =>
            chain (createDelegateClient env.delegate delegateAccount env.mainKeyMaterial)
              (fun _ => completedResult (placeTrade cfg env.trade)))
        else
          completedResult (placeTrade cfg env.trade)
      else
        ([], .error .subscribeFailed))
  else
    ([], .error .subscribeFailed)

/-- `main` (lines 250-366).  `getBalance` returns the raw lamport count
and line 267 compares it to the literal `0.1`, so the early return is
taken exactly when `walletLamports < 0.1` as rationals. -/
def mainRun (cfg : BotConfig) (env : MainEnv) : List Event × RunResult MainOutcome :=
  if (env.walletLamports : ℚ) < 1/10 then
    ([], .ok .earlyAbort)
  else
    mainBody cfg env

/-- The outer `.then(process.exit(0)) / .catch(process.exit(1))` of
lines 368-376. -/
def exitCode (r : RunResult MainOutcome) : Nat :=
  match r with
  | .ok _ => 0
  | .error _ => 1

/-- Whether a run's result is the spec's terminal state `Done`: the whole
workflow succeeded and an order was placed. -/
def isDone (r : RunResult MainOutcome) : Bool :=
  match r with
  | .ok (.completed _) => true
  | _ => false

/-- Trace helpers: count the deposits, the order submissions and the
account polls of a trace, and extract the collateral reads and the
registered delegate keys. -/
def isDepositEvent : Event → Bool
  | .deposit _ => true
  | _ => false

def isOrderEvent : Event → Bool
  | .placePerpOrder _ _ _ => true
  | _ => false

def isPollEvent : Event → Bool
  | .accountPoll _ => true
  | _ => false

def depositCount (tr : List Event) : Nat := (tr.filter isDepositEvent).length

def orderCount (tr : List Event) : Nat := (tr.filter isOrderEvent).length

def pollCount (tr : List Event) : Nat := (tr.filter isPollEvent).length

def collateralReads (tr : List Event) : List ℚ :=
  tr.filterMap (fun e => match e with | .readCollateral v => some v | _ => none)

/-- The free-collateral value most recently read at the end of a trace
fragment. -/
def lastReadCollateral (tr : List Event) : Option ℚ :=
  (collateralReads tr).getLast?

def delegateKeyEvents (tr : List Event) : List Nat :=
  tr.filterMap (fun e => match e with | .updateDelegate k => some k | _ => none)

/-- A run of `placeTrade` in which both collateral reads see no position
(free collateral 0) and both the deposit and the submission succeed. -/
def envC1 : TradeEnv :=
  { markets := devnetMarkets
    readBefore := fun _ => .absent
    readAfter := fun _ => .absent
    depositOk := true
    orderOutcome := .success 42 }

/-- A run of `placeTrade` that starts at 0.05 SOL of free collateral and
whose post-deposit re-read sees no position (free collateral 0). -/
def envC5 : TradeEnv :=
  { markets := devnetMarkets
    readBefore := fun _ => .found ⟨5 * 10^7, 0⟩
    readAfter := fun _ => .absent
    depositOk := true
    orderOutcome := .success 7 }

/-- A run of `placeTrade` whose collateral stays at 0.05 SOL before and
after the deposit. -/
def envC2 : TradeEnv :=
  { markets := devnetMarkets
    readBefore := fun _ => .found ⟨5 * 10^7, 0⟩
    readAfter := fun _ => .found ⟨5 * 10^7, 0⟩
    depositOk := true
    orderOutcome := .success 0 }

/-- A run of `placeTrade` with ample collateral whose submission is
rejected in simulation with an order-too-small log line. -/
def envC8 : TradeEnv :=
  { markets := devnetMarkets
    readBefore := fun _ => .found ⟨10^9, 0⟩
    readAfter := fun _ => .found ⟨10^9, 0⟩
    depositOk := true
    orderOutcome := .failure (.sendTransactionError
      (some ["Program log: Error: OrderAmountTooSmall"])) }

/-- A `main` run whose wallet holds 0 lamports; everything downstream
would succeed. -/
def envC4 : MainEnv :=
  { walletLamports := 0
    mainKeyMaterial := 0
    subscribeOk := true
    provision := ⟨true, true, true, true⟩
    userSubscribeOk := true
    delegate := ⟨0, true, true⟩
    trade :=
      { markets := devnetMarkets
        readBefore := fun _ => .absent
        readAfter := fun _ => .absent
        depositOk := true
        orderOutcome := .success 0 } }

/-- The source configuration with the delegate path switched on. -/
def cfgDelegate : BotConfig := { BOT_CONFIG with useDelegate := true }

/-- A fully successful delegate-mode run: wallet funded, sub-account
present, fresh delegate key material 5, main wallet key material 7. -/
def envC9 : MainEnv :=
  { walletLamports := 10^9
    mainKeyMaterial := 7
    subscribeOk := true
    provision := ⟨true, true, true, true⟩
    userSubscribeOk := true
    delegate := ⟨5, true, true⟩
    trade :=
      { markets := devnetMarkets
        readBefore := fun _ => .found ⟨10^9, 0⟩
        readAfter := fun _ => .found ⟨10^9, 0⟩
        depositOk := true
        orderOutcome := .success 1 } }

/-- The registered delegate keys of a whole run, in closed form: empty
unless the delegate path is reached, in which case exactly the freshly
sampled key material — and never anything derived from the main wallet. -/
def expectedDelegateKeys (cfg : BotConfig) (env : MainEnv) : List Nat :=
  if (env.walletLamports : ℚ) < 1/10 then []
  else if env.subscribeOk then
    match (provisionAccount env.provision).2 with
    | .error _ => []
    | .ok _ =>
      if env.userSubscribeOk then
        if cfg.useDelegate then [env.delegate.rng] else []
      else []
  else []

/-! Helper lemmas. -/

lemma chain_error {α β : Type} (ev : List Event) (e : BotError)
    (k : α → List Event × RunResult β) :
    chain (ev, .error e) k = (ev, .error e) := rfl

lemma chain_ok {α β : Type} (ev : List Event) (a : α)
    (k : α → List Event × RunResult β) :
    chain (ev, .ok a) k = (ev ++ (k a).1, (k a).2) := rfl

lemma completedResult_ne_earlyAbort (t : List Event × RunResult Nat) :
    (completedResult t).2 ≠ .ok .earlyAbort := by
  rcases t with ⟨ev, r⟩
  cases r <;> simp [completedResult]

lemma chain_ne_earlyAbort {α : Type} (s : List Event × RunResult α)
    (k : α → List Event × RunResult MainOutcome)
    (hk : ∀ a, (k a).2 ≠ .ok .earlyAbort) :
    (chain s k).2 ≠ .ok .earlyAbort := by
  rcases s with ⟨ev, r⟩
  cases r with
  | ok a => rw [chain_ok]; exact hk a
  | error e => rw [chain_error]; simp

/-- Past the wallet-balance guard, `main` never resolves with the
early-abort outcome. -/
lemma mainBody_ne_earlyAbort (cfg : BotConfig) (env : MainEnv) :
    (mainBody cfg env).2 ≠ .ok .earlyAbort := by
  unfold mainBody
  by_cases hs : env.subscribeOk
  · rw [if_pos hs]
    apply chain_ne_earlyAbort
    intro a
    by_cases hu : env.userSubscribeOk
    · rw [if_pos hu]
      by_cases hd : cfg.useDelegate
      · rw [if_pos hd]
        apply chain_ne_earlyAbort
        intro d
        apply chain_ne_earlyAbort
        intro c
        exact completedResult_ne_earlyAbort _
      · rw [if_neg hd]
        exact completedResult_ne_earlyAbort _
    · rw [if_neg hu]; simp
  · rw [if_neg hs]; simp

/-- An integer lamport count is below the literal `0.1` exactly when it
is zero. -/
lemma lamport_lt_tenth_iff (n : Nat) : ((n : ℚ) < 1/10) ↔ n = 0 := by
  constructor
  · intro h
    by_contra hn
    have h1 : (1 : ℚ) ≤ (n : ℚ) := by exact_mod_cast Nat.one_le_iff_ne_zero.mpr hn
    linarith
  · rintro rfl; norm_num

lemma delegateKeyEvents_chain {α β : Type} (s : List Event × RunResult α)
    (k : α → List Event × RunResult β) :
    delegateKeyEvents (chain s k).1 =
      delegateKeyEvents s.1 ++
        (match s.2 with
         | .ok a => delegateKeyEvents (k a).1
         | .error _ => []) := by
  rcases s with ⟨ev, r⟩
  cases r with
  | ok a => rw [chain_ok]; simp [delegateKeyEvents]
  | error e => rw [chain_error]; simp

lemma delegateKeyEvents_provisionAccount (env : ProvisionEnv) :
    delegateKeyEvents (provisionAccount env).1 = [] := by
  rcases env with ⟨hu, co, f1, f2⟩
  cases hu <;> cases co <;> cases f1 <;> cases f2 <;>
    simp [provisionAccount, delegateKeyEvents]

lemma delegateKeyEvents_submitOrder (cfg : BotConfig) (ti : MarketInfo) (env : TradeEnv)
    (ev : List Event) :
    delegateKeyEvents (submitOrder cfg ti env ev).1 = delegateKeyEvents ev := by
  unfold submitOrder
  rcases ho : env.orderOutcome with sig | e
  · simp [delegateKeyEvents]
  · rcases e with logs | _ <;> simp [delegateKeyEvents]

lemma delegateKeyEvents_placeTrade (cfg : BotConfig) (env : TradeEnv) :
    delegateKeyEvents (placeTrade cfg env).1 = [] := by
  cases hm : getTokenInfo env.markets "SOL" with
  | none => simp [placeTrade, hm, delegateKeyEvents]
  | some ti =>
    simp only [placeTrade, hm]
    by_cases h0 : getTradingAccountBalance cfg env.readBefore = 0 ∨
        getTradingAccountBalance cfg env.readBefore < cfg.orderSize * 2
    · rw [if_pos h0]
      by_cases hd : env.depositOk
      · rw [if_pos hd]
        by_cases h1 : getTradingAccountBalance cfg env.readAfter ≠ 0 ∧
            getTradingAccountBalance cfg env.readAfter < cfg.orderSize * 2
        · rw [if_pos h1]; simp [delegateKeyEvents]
        · rw [if_neg h1, delegateKeyEvents_submitOrder]; simp [delegateKeyEvents]
      · rw [if_neg hd]; simp [delegateKeyEvents]
    · rw [if_neg h0, delegateKeyEvents_submitOrder]; simp [delegateKeyEvents]

lemma delegateKeyEvents_setupDelegate (env : DelegateEnv) :
    delegateKeyEvents (setupDelegate env).1 = [env.rng] := by
  unfold setupDelegate generateDelegateKeypair
  cases h : env.updateDelegateOk <;> simp [h, delegateKeyEvents]

lemma delegateKeyEvents_createDelegateClient (env : DelegateEnv) (k : Keypair) (m : Nat) :
    delegateKeyEvents (createDelegateClient env k m).1 = [] := by
  unfold createDelegateClient
  cases h : env.delegateSubscribeOk <;> simp [h, delegateKeyEvents]

/-- A whole run registers exactly the delegate keys `expectedDelegateKeys`
predicts. -/
lemma delegateKeyEvents_mainRun (cfg : BotConfig) (env : MainEnv) :
    delegateKeyEvents (mainRun cfg env).1 = expectedDelegateKeys cfg env := by
  unfold mainRun expectedDelegateKeys
  by_cases hg : (env.walletLamports : ℚ) < 1/10
  · rw [if_pos hg, if_pos hg]
    simp [delegateKeyEvents]
  · rw [if_neg hg, if_neg hg]
    unfold mainBody
    by_cases hs : env.subscribeOk
    · rw [if_pos hs, if_pos hs]
      rw [delegateKeyEvents_chain, delegateKeyEvents_provisionAccount, List.nil_append]
      cases hp : (provisionAccount env.provision).2 with
      | error e => simp
      | ok a =>
        dsimp only
        by_cases hu : env.userSubscribeOk
        · rw [if_pos hu, if_pos hu]
          by_cases hd : cfg.useDelegate
          · rw [if_pos hd, if_pos hd]
            rw [delegateKeyEvents_chain, delegateKeyEvents_setupDelegate]
            cases hsd : (setupDelegate env.delegate).2 with
            | error e => simp
            | ok kp =>
              dsimp only
              rw [delegateKeyEvents_chain, delegateKeyEvents_createDelegateClient]
              cases hcd : (createDelegateClient env.delegate kp env.mainKeyMaterial).2 with
              | error e => simp
              | ok u =>
                dsimp only
                simp [completedResult, delegateKeyEvents_placeTrade]
          · rw [if_neg hd, if_neg hd]
            simp [completedResult, delegateKeyEvents_placeTrade]
        · rw [if_neg hu, if_neg hu]
          simp [delegateKeyEvents]
    · rw [if_neg hs, if_neg hs]
      simp [delegateKeyEvents]

/-! Claims. -/

/-- C1.  The claim says an order submission is attempted only when the
most recently read free collateral is at least `2 × orderSize`; the code
violates it.  In `envC1` the post-deposit re-read returns free collateral
0 — which is below the required `2 × 0.1 = 0.2` — yet the run reaches
`placePerpOrder` and succeeds, because the re-check of line 204
(`newTradingAccountBalance && ... < requiredCollateral`) is skipped for
the falsy value 0. -/
theorem c1_submission_below_threshold :
    placeTrade BOT_CONFIG envC1 =
      ([Event.readCollateral 0, Event.deposit (1/2), Event.readCollateral 0,
        Event.placePerpOrder 0 100000000 165350000], .ok 42) ∧
    collateralReads (placeTrade BOT_CONFIG envC1).1 = [0, 0] ∧
    (0 : ℚ) < 2 * BOT_CONFIG.orderSize ∧
    orderCount (placeTrade BOT_CONFIG envC1).1 = 1 := by
  have h : placeTrade BOT_CONFIG envC1 =
      ([Event.readCollateral 0, Event.deposit (1/2), Event.readCollateral 0,
        Event.placePerpOrder 0 100000000 165350000], .ok 42) := by
    simp [placeTrade, submitOrder, getTradingAccountBalance, getTokenInfo, devnetMarkets,
      envC1, BOT_CONFIG]
    norm_num
  refine ⟨h, ?_, by norm_num [BOT_CONFIG], ?_⟩ <;>
    rw [h] <;> simp [collateralReads, orderCount, isOrderEvent]

/-- C2.  The post-deposit re-verification immediately before submission
performs no remediation: whenever it finds insufficient collateral (a
nonzero re-read below `orderSize * 2`), `placeTrade` fails fatally with
the still-insufficient error, having issued exactly the one upstream
deposit and no order submission — no deposit follows the re-check. -/
theorem c2_recheck_fails_without_second_deposit (cfg : BotConfig) (env : TradeEnv)
    (ti : MarketInfo)
    (hm : getTokenInfo env.markets "SOL" = some ti)
    (h0 : getTradingAccountBalance cfg env.readBefore = 0 ∨
          getTradingAccountBalance cfg env.readBefore < cfg.orderSize * 2)
    (hdep : env.depositOk = true)
    (h1 : getTradingAccountBalance cfg env.readAfter ≠ 0)
    (h2 : getTradingAccountBalance cfg env.readAfter < cfg.orderSize * 2) :
    placeTrade cfg env =
      ([Event.readCollateral (getTradingAccountBalance cfg env.readBefore),
        Event.deposit cfg.depositAmount,
        Event.readCollateral (getTradingAccountBalance cfg env.readAfter)],
       .error .stillInsufficientAfterDeposit) ∧
    depositCount (placeTrade cfg env).1 = 1 ∧
    orderCount (placeTrade cfg env).1 = 0 := by
  have h : placeTrade cfg env =
      ([Event.readCollateral (getTradingAccountBalance cfg env.readBefore),
        Event.deposit cfg.depositAmount,
        Event.readCollateral (getTradingAccountBalance cfg env.readAfter)],
       .error .stillInsufficientAfterDeposit) := by
    simp only [placeTrade, hm]
    rw [if_pos h0, if_pos hdep, if_pos ⟨h1, h2⟩]
    simp
  refine ⟨h, ?_, ?_⟩ <;> rw [h] <;>
    simp [depositCount, orderCount, isDepositEvent, isOrderEvent]

/-- Witness for C2 at the concrete 0.05-SOL environment `envC2`. -/
theorem c2_recheck_witness :
    placeTrade BOT_CONFIG envC2 =
      ([Event.readCollateral (getTradingAccountBalance BOT_CONFIG envC2.readBefore),
        Event.deposit BOT_CONFIG.depositAmount,
        Event.readCollateral (getTradingAccountBalance BOT_CONFIG envC2.readAfter)],
       .error .stillInsufficientAfterDeposit) ∧
    depositCount (placeTrade BOT_CONFIG envC2).1 = 1 ∧
    orderCount (placeTrade BOT_CONFIG envC2).1 = 0 :=
  c2_recheck_fails_without_second_deposit BOT_CONFIG envC2 ⟨"SOL", 0⟩ rfl
    (Or.inr (by norm_num [getTradingAccountBalance, envC2, BOT_CONFIG]))
    rfl
    (by norm_num [getTradingAccountBalance, envC2, BOT_CONFIG])
    (by norm_num [getTradingAccountBalance, envC2, BOT_CONFIG])

/-- C3 counterexample.  A present position with `cumulativeDeposits = 0`
and `scaledBalance = 10^9` makes `getTradingAccountBalance` return `-1`:
the computed free collateral is negative, refuting "never negative". -/
theorem c3_negative_free_collateral :
    getTradingAccountBalance BOT_CONFIG (fun _ => .found ⟨0, 10^9⟩) = -1 ∧
    getTradingAccountBalance BOT_CONFIG (fun _ => .found ⟨0, 10^9⟩) < 0 := by
  constructor <;> norm_num [getTradingAccountBalance, BOT_CONFIG]

/-- C3 amended.  The free-collateral computation returns
`cumulativeDeposits/1e9 − scaledBalance/1e9` for the configured market
when the position is present — a value that is negative exactly when
`scaledBalance` exceeds `cumulativeDeposits` — and exactly zero when the
position is absent or the read throws; being total, it never fails. -/
theorem c3_free_collateral_formula (cfg : BotConfig)
    (rFound rAbsent rThrows : Nat → SpotRead) (p : SpotPosition)
    (hf : rFound cfg.marketIndex = .found p)
    (ha : rAbsent cfg.marketIndex = .absent)
    (ht : rThrows cfg.marketIndex = .throws) :
    getTradingAccountBalance cfg rFound
      = (p.cumulativeDeposits : ℚ) / 10^9 - (p.scaledBalance : ℚ) / 10^9 ∧
    (getTradingAccountBalance cfg rFound < 0 ↔ p.cumulativeDeposits < p.scaledBalance) ∧
    getTradingAccountBalance cfg rAbsent = 0 ∧
    getTradingAccountBalance cfg rThrows = 0 := by
  have hb : getTradingAccountBalance cfg rFound
      = (p.cumulativeDeposits : ℚ) / 10^9 - (p.scaledBalance : ℚ) / 10^9 := by
    simp [getTradingAccountBalance, hf]
  refine ⟨hb, ?_, by simp [getTradingAccountBalance, ha],
    by simp [getTradingAccountBalance, ht]⟩
  rw [hb, sub_neg, div_lt_div_iff_of_pos_right (by positivity), Int.cast_lt]

/-- Witness for C3's amended statement at a concrete position. -/
theorem c3_free_collateral_witness :
    getTradingAccountBalance BOT_CONFIG (fun _ => .found ⟨2, 3⟩)
      = ((2 : Int) : ℚ) / 10^9 - ((3 : Int) : ℚ) / 10^9 ∧
    (getTradingAccountBalance BOT_CONFIG (fun _ => .found ⟨2, 3⟩) < 0 ↔ (2 : Int) < 3) ∧
    getTradingAccountBalance BOT_CONFIG (fun _ => .absent) = 0 ∧
    getTradingAccountBalance BOT_CONFIG (fun _ => .throws) = 0 :=
  c3_free_collateral_formula BOT_CONFIG (fun _ => .found ⟨2, 3⟩) (fun _ => .absent)
    (fun _ => .throws) ⟨2, 3⟩ rfl rfl rfl

/-- C4 counterexample.  With a 0-lamport wallet, `main` takes the early
insufficient-balance return: the run places no order and does not reach
`Done`, yet resolves normally and the process exits with code 0. -/
theorem c4_zero_exit_without_done :
    exitCode (mainRun BOT_CONFIG envC4).2 = 0 ∧
    isDone (mainRun BOT_CONFIG envC4).2 = false ∧
    orderCount (mainRun BOT_CONFIG envC4).1 = 0 := by
  have h : mainRun BOT_CONFIG envC4 = ([], .ok .earlyAbort) := by
    unfold mainRun
    rw [if_pos (by norm_num [envC4])]
  rw [h]
  simp [exitCode, isDone, orderCount]

/-- C4 amended.  The exit code is 0 exactly when `main` resolves without
throwing — either the whole workflow succeeds (`Done`) or the early
insufficient-wallet-balance abort is taken — and every failure that
rejects the promise exits with code 1 (the only other exit code). -/
theorem c4_exit_code_mapping (cfg : BotConfig) (env : MainEnv) :
    (exitCode (mainRun cfg env).2 = 0 ↔
      (isDone (mainRun cfg env).2 = true ∨ (mainRun cfg env).2 = .ok .earlyAbort)) ∧
    (exitCode (mainRun cfg env).2 = 0 ∨ exitCode (mainRun cfg env).2 = 1) := by
  cases hr : (mainRun cfg env).2 with
  | ok v => cases v <;> simp [exitCode, isDone]
  | error e => simp [exitCode, isDone]

/-- C5.  The claim says an initially insufficient run whose re-read is
still below the requirement fails with the insufficient-collateral error
and submits nothing; the code violates it.  In `envC5` the first read is
0.05 < 0.2, the deposit succeeds, the re-read is 0 < 0.2 — yet the run
does not fail and submits the order once, because the falsy re-read 0
skips the line-204 guard. -/
theorem c5_zero_reread_skips_failure :
    placeTrade BOT_CONFIG envC5 =
      ([Event.readCollateral (1/20), Event.deposit (1/2), Event.readCollateral 0,
        Event.placePerpOrder 0 100000000 165350000], .ok 7) ∧
    (0 : ℚ) < 2 * BOT_CONFIG.orderSize ∧
    (placeTrade BOT_CONFIG envC5).2 ≠ .error .stillInsufficientAfterDeposit ∧
    orderCount (placeTrade BOT_CONFIG envC5).1 = 1 := by
  have h : placeTrade BOT_CONFIG envC5 =
      ([Event.readCollateral (1/20), Event.deposit (1/2), Event.readCollateral 0,
        Event.placePerpOrder 0 100000000 165350000], .ok 7) := by
    simp [placeTrade, submitOrder, getTradingAccountBalance, getTokenInfo, devnetMarkets,
      envC5, BOT_CONFIG]
    norm_num
  refine ⟨h, by norm_num [BOT_CONFIG], ?_, ?_⟩ <;>
    rw [h] <;> simp [orderCount, isOrderEvent]

/-- C6.  Provisioning is bounded: every run performs at most 2 re-checks
after the creation request, and a run that creates and finds the account
absent at both re-checks ends with the account-still-not-found failure
after exactly those two polls, rather than polling further. -/
theorem c6_bounded_rechecks (envAny env : ProvisionEnv)
    (h : env.hasUser = false) (hc : env.createOk = true)
    (h1 : env.foundAfterFirstWait = false) (h2 : env.foundAfterSecondWait = false) :
    pollCount (provisionAccount envAny).1 ≤ 2 ∧
    provisionAccount env =
      ([Event.createAccount, Event.accountPoll false, Event.accountPoll false],
       .error .accountStillNotFound) := by
  constructor
  · rcases envAny with ⟨hu, co, f1, f2⟩
    cases hu <;> cases co <;> cases f1 <;> cases f2 <;>
      simp [provisionAccount, pollCount, isPollEvent, List.filter]
  · simp [provisionAccount, h, hc, h1, h2]

/-- Witness for C6 at concrete provisioning environments. -/
theorem c6_bounded_witness :
    pollCount (provisionAccount ⟨true, true, true, true⟩).1 ≤ 2 ∧
    provisionAccount ⟨false, true, false, false⟩ =
      ([Event.createAccount, Event.accountPoll false, Event.accountPoll false],
       .error .accountStillNotFound) :=
  c6_bounded_rechecks ⟨true, true, true, true⟩ ⟨false, true, false, false⟩ rfl rfl rfl rfl

/-- C7.  Provisioning is idempotent: when the sub-account already exists,
the provisioning block returns immediately with an empty trace — zero
creation requests, zero polls, zero on-chain transactions. -/
theorem c7_provisioning_idempotent (env : ProvisionEnv) (h : env.hasUser = true) :
    provisionAccount env = ([], .ok ()) := by
  simp [provisionAccount, h]

/-- Witness for C7: a run whose sub-account is already present. -/
theorem c7_idempotent_witness : provisionAccount ⟨true, false, false, false⟩ = ([], .ok ()) :=
  c7_provisioning_idempotent ⟨true, false, false, false⟩ rfl

/-- C8.  A submission rejected in simulation with a log line containing
the order-too-small marker is classified to the distinct order-too-small
diagnosis, the raw simulation logs are preserved unchanged in the
propagated error, and the order is submitted exactly once (no retry). -/
theorem c8_order_too_small_classified (cfg : BotConfig) (env : TradeEnv)
    (ti : MarketInfo) (logs : List String)
    (hm : getTokenInfo env.markets "SOL" = some ti)
    (ho : env.orderOutcome = .failure (.sendTransactionError (some logs)))
    (hmark : logs.any lineHasMarker = true)
    (hb : getTradingAccountBalance cfg env.readBefore ≠ 0)
    (hb2 : ¬ getTradingAccountBalance cfg env.readBefore < cfg.orderSize * 2) :
    placeTrade cfg env =
      ([Event.readCollateral (getTradingAccountBalance cfg env.readBefore),
        Event.placePerpOrder ti.marketIndex (cfg.orderSize * 10^9) (cfg.price * 10^6),
        Event.logDiagnosis true],
       .error (.txFailed (.sendTransactionError (some logs)))) ∧
    classifyTxError (.sendTransactionError (some logs)) = .orderTooSmall ∧
    orderCount (placeTrade cfg env).1 = 1 := by
  have hfirst : ¬ (getTradingAccountBalance cfg env.readBefore = 0 ∨
      getTradingAccountBalance cfg env.readBefore < cfg.orderSize * 2) := by
    rintro (h | h)
    · exact hb h
    · exact hb2 h
  have h : placeTrade cfg env =
      ([Event.readCollateral (getTradingAccountBalance cfg env.readBefore),
        Event.placePerpOrder ti.marketIndex (cfg.orderSize * 10^9) (cfg.price * 10^6),
        Event.logDiagnosis true],
       .error (.txFailed (.sendTransactionError (some logs)))) := by
    simp only [placeTrade, hm]
    rw [if_neg hfirst]
    simp [submitOrder, ho, logsShowOrderTooSmall, hmark]
  refine ⟨h, ?_, ?_⟩
  · simp [classifyTxError, logsShowOrderTooSmall, hmark]
  · rw [h]; simp [orderCount, isOrderEvent]

/-- Witness for C8 at the concrete rejected-run environment `envC8`. -/
theorem c8_order_too_small_witness :
    placeTrade BOT_CONFIG envC8 =
      ([Event.readCollateral (getTradingAccountBalance BOT_CONFIG envC8.readBefore),
        Event.placePerpOrder 0 (BOT_CONFIG.orderSize * 10^9) (BOT_CONFIG.price * 10^6),
        Event.logDiagnosis true],
       .error (.txFailed (.sendTransactionError
         (some ["Program log: Error: OrderAmountTooSmall"])))) ∧
    classifyTxError (.sendTransactionError
      (some ["Program log: Error: OrderAmountTooSmall"])) = .orderTooSmall ∧
    orderCount (placeTrade BOT_CONFIG envC8).1 = 1 :=
  c8_order_too_small_classified BOT_CONFIG envC8 ⟨"SOL", 0⟩
    ["Program log: Error: OrderAmountTooSmall"] rfl rfl (by decide)
    (by norm_num [getTradingAccountBalance, envC8, BOT_CONFIG])
    (by norm_num [getTradingAccountBalance, envC8, BOT_CONFIG])

/-- C9.  Delegate isolation: provided the locally sampled key material is
fresh (distinct from the main wallet's), the delegate keys a run
registers do not depend on the main wallet's key material — replacing it
changes nothing — the main wallet's material is never among them, and the
generated delegate keypair differs from the main wallet's keypair. -/
theorem c9_delegate_isolation (cfg : BotConfig) (env : MainEnv) (m : Nat)
    (hfresh : env.delegate.rng ≠ env.mainKeyMaterial) :
    delegateKeyEvents (mainRun cfg { env with mainKeyMaterial := m }).1
      = delegateKeyEvents (mainRun cfg env).1 ∧
    env.mainKeyMaterial ∉ delegateKeyEvents (mainRun cfg env).1 ∧
    generateDelegateKeypair env.delegate.rng ≠ Keypair.mk env.mainKeyMaterial := by
  refine ⟨?_, ?_, ?_⟩
  · rw [delegateKeyEvents_mainRun, delegateKeyEvents_mainRun]
    rfl
  · rw [delegateKeyEvents_mainRun]
    unfold expectedDelegateKeys
    split
    · simp
    · split
      · split
        · simp
        · split
          · split
            · intro hmem
              simp at hmem
              exact hfresh hmem.symm
            · simp
          · simp
      · simp
  · intro hEq
    apply hfresh
    simpa [generateDelegateKeypair, Keypair.mk.injEq] using hEq

/-- Witness for C9 at the concrete delegate-mode run `envC9`. -/
theorem c9_delegate_isolation_witness :
    delegateKeyEvents (mainRun cfgDelegate { envC9 with mainKeyMaterial := 99 }).1
      = delegateKeyEvents (mainRun cfgDelegate envC9).1 ∧
    envC9.mainKeyMaterial ∉ delegateKeyEvents (mainRun cfgDelegate envC9).1 ∧
    generateDelegateKeypair envC9.delegate.rng ≠ Keypair.mk envC9.mainKeyMaterial :=
  c9_delegate_isolation cfgDelegate envC9 99 (by decide)

/-- C10.  `getBalance` returns lamports and line 267 compares them to the
literal `0.1`, so the guard is below the threshold exactly for the
0-lamport wallet: every balance of at least 1 lamport passes, and the
early abort is taken if and only if the wallet holds 0 lamports. -/
theorem c10_lamport_guard (cfg : BotConfig) (env : MainEnv) (n : Nat) :
    (((n : ℚ) < 1/10) ↔ n = 0) ∧
    ((mainRun cfg env).2 = .ok .earlyAbort ↔ env.walletLamports = 0) := by
  refine ⟨lamport_lt_tenth_iff n, ?_⟩
  unfold mainRun
  by_cases hg : (env.walletLamports : ℚ) < 1/10
  · rw [if_pos hg]
    simpa using (lamport_lt_tenth_iff _).mp hg
  · rw [if_neg hg]
    constructor
    · intro h
      exact absurd h (mainBody_ne_earlyAbort cfg env)
    · intro h
      exact absurd ((lamport_lt_tenth_iff _).mpr h) hg

end DriftBot
